import Mathlib

/-!
Verification of the client-side dispatch-and-await core of taskiq
(`taskiq/kicker.py` and `taskiq/task.py`), as a shallow embedding.

Python dictionaries are modelled as insertion-ordered association lists,
Python object identity of the kicker's mutable label dictionary is modelled
by an explicit store mapping references to label maps, awaitable-or-value
hook results are modelled by a tagged variant type, and fallible operations
of the external collaborators (formatter, broker transport, result backend)
return `Except`.  Real time inside `wait_result` is idealised: readiness
checks are instantaneous and each `asyncio.sleep(check_interval)` advances
the clock by exactly `check_interval` (a rational number of seconds).
-/

set_option autoImplicit false

/-- Python values exchanged as task arguments and label values.  A pydantic
`BaseModel` instance and a dataclass instance are kept as tagged field lists
so that the normalization in `_prepare_arg` can recognise them. -/
inductive Value where
  | vstr : String → Value
  | vint : Int → Value
  | vnone : Value
  | vlist : List Value → Value
  | vdict : List (String × Value) → Value
  | pydanticModel : List (String × Value) → Value
  | dataclassObj : List (String × Value) → Value

/-- A Python `dict` with string keys, as an insertion-ordered association list
with unique keys. -/
abbrev LabelMap := List (String × Value)

/-- Python `d[k] = v`: replace the value at the first occurrence of `k`,
keeping its position, or append `(k, v)` when `k` is absent. -/
def dictSet (d : LabelMap) (k : String) (v : Value) : LabelMap :=
  match d with
  | [] => [(k, v)]
  | (k', v') :: rest => if k' = k then (k', v) :: rest else (k', v') :: dictSet rest k v

/-- Python `d.update(new)`: set every key of `new` in order, so a later
occurrence of a key overrides an earlier one. -/
def dictUpdate (d new : LabelMap) : LabelMap :=
  new.foldl (fun acc kv => dictSet acc kv.1 kv.2) d

/-- Python `d[k]` as an option: the value at the first occurrence of `k`. -/
def dictLookup (d : LabelMap) (key : String) : Option Value :=
  match d with
  | [] => none
  | (k, v) :: rest => if k = key then some v else dictLookup rest key

/-- First-defined choice between two optional values. -/
def optOr (a b : Option Value) : Option Value :=
  match a with
  | some v => some v
  | none => b

/-- A heap of label dictionaries, addressed by reference.  A kicker owns a
reference into this store; `with_labels` mutates the store in place. -/
abbrev Store := Nat → LabelMap

/-- Overwrite the dictionary at reference `r`. -/
def storeSet (σ : Store) (r : Nat) (m : LabelMap) : Store :=
  fun r' => if r' = r then m else σ r'

/-- Modelled from the spec: `uuid4().hex` (Python standard library, not part
of this repository) yields a fresh, unique, non-empty identifier on every
call; call number `n` of the process yields `uuid4hex n`. -/
def uuid4hex (n : Nat) : String :=
  String.mk (List.replicate (n + 1) 'f')

/-- Modelled from the spec: the task message record of `taskiq/message.py`
(not under `src/`) is a pydantic model; validating the `meta` field copies
the label dictionary passed to the constructor, so `meta` here holds the
label map by value, frozen at construction. -/
structure TaskiqMessage where
  task_id : String
  task_name : String
  meta : LabelMap
  args : List Value
  kwargs : List (String × Value)

/-- An opaque Python exception raised by an external collaborator. -/
abbrev PyErr := String

/-- The task handle of `taskiq/task.py`: a task id plus a reference to the
broker's result backend (object identity modelled as a number). -/
structure AsyncTaskiqTask where
  task_id : String
  result_backend : Nat
  deriving DecidableEq, Repr

/-- The result backend as the kicker sees it: its identity, and — modelled
from the spec — a handle-factory operation `makeHandle(taskId)` that a
result-store implementation may use to return specialized handle variants
(`taskiq/abc/result_backend.py` is not under `src/`). -/
structure ResultBackend where
  ref : Nat
  makeHandle : String → AsyncTaskiqTask

/-- Result of invoking a middleware hook: either an immediate value or a
pending computation (an awaitable) that resolves to the value.  Python's
`inspect.isawaitable` distinguishes the two at runtime. -/
inductive HookResult (α : Type) where
  | immediate : α → HookResult α
  | pending : α → HookResult α

/-- Awaits a pending hook result, or takes an immediate one directly:
`await r if isawaitable(r) else r`. -/
def resolveHook {α : Type} : HookResult α → α
  | .immediate v => v
  | .pending v => v

/-- A broker middleware, with its pre-send and post-send hooks.  Each hook
may return either an immediate value or a pending one. -/
structure Middleware where
  pre_send : TaskiqMessage → LabelMap → HookResult TaskiqMessage
  post_send : TaskiqMessage → LabelMap → HookResult Unit

/-- The broker's message formatter; `dumps` may raise. -/
structure TaskiqFormatter where
  dumps : TaskiqMessage → LabelMap → Except PyErr String

/-- The async broker as the kicker sees it: ordered middlewares, a
formatter, a fallible `kick` delivery operation, and a result backend. -/
structure Broker where
  middlewares : List Middleware
  formatter : TaskiqFormatter
  kick : String → Except PyErr Unit
  result_backend : ResultBackend

/-- The kicker of `taskiq/kicker.py`: a task name, a broker, and a reference
to its owned mutable label dictionary in the store. -/
structure AsyncKicker where
  task_name : String
  broker : Broker
  labelsRef : Nat

/-- The method `AsyncKicker.with_labels`: `self.labels.update(labels);
return self`.  Mutates the owned dictionary in the store and returns the
same kicker. -/
def AsyncKicker.with_labels (σ : Store) (k : AsyncKicker) (labels : LabelMap) :
    Store × AsyncKicker :=
  (storeSet σ k.labelsRef (dictUpdate (σ k.labelsRef) labels), k)

/-- The class method `AsyncKicker._prepare_arg`: a pydantic `BaseModel`
becomes `arg.dict()`, then a dataclass instance becomes `asdict(arg)`, and
any other value passes through unchanged. -/
def AsyncKicker.prepare_arg (arg : Value) : Value :=
  let arg : Value :=
    match arg with
    | .pydanticModel fields => .vdict fields
    | a => a
  match arg with
  | .dataclassObj fields => .vdict fields
  | a => a

/-- The method `AsyncKicker._prepare_message`: map `_prepare_arg` over the
positional and keyword arguments, draw a fresh task id (call number `n` of
the process-wide uuid supply), and build the message with the kicker's task
name and its label dictionary as metadata. -/
def AsyncKicker.prepare_message (σ : Store) (k : AsyncKicker) (n : Nat)
    (args : List Value) (kwargs : List (String × Value)) : TaskiqMessage :=
  { task_id := uuid4hex n
    task_name := k.task_name
    meta := σ k.labelsRef
    args := args.map AsyncKicker.prepare_arg
    kwargs := kwargs.map fun p => (p.1, AsyncKicker.prepare_arg p.2) }

/-- The error raised by `kiq` when encoding or delivery fails:
`raise SendTaskError() from exc` keeps the original error as the cause. -/
inductive KickError where
  | sendTaskError : PyErr → KickError
  deriving DecidableEq, Repr

/-- Observable outcome of one `kiq` call: the returned handle or the raised
error, together with how many post-send hooks were executed. -/
structure KiqOutput where
  outcome : Except KickError AsyncTaskiqTask
  postHooksRan : Nat
  deriving Repr

/-- The pre-send middleware loop of `kiq`: each hook's result is awaited if
it is pending and taken directly otherwise, and the resolved value becomes
the message given to the next hook. -/
def runPre (mids : List Middleware) (labels : LabelMap) (message : TaskiqMessage) :
    TaskiqMessage :=
  match mids with
  | [] => message
  | mw :: rest =>
    let message :=
      match mw.pre_send message labels with
      | .pending v => v
      | .immediate v => v
    runPre rest labels message

/-- The post-send middleware loop of `kiq`: every hook runs (a pending
result is awaited, an immediate one is discarded); returns how many ran. -/
def runPost (mids : List Middleware) (message : TaskiqMessage) (labels : LabelMap) :
    Nat :=
  match mids with
  | [] => 0
  | mw :: rest =>
    match mw.post_send message labels with
    | .pending _ => runPost rest message labels + 1
    | .immediate _ => runPost rest message labels + 1

/-- The method `AsyncKicker.kiq`: build the message, run the pre-send
hooks, encode and kick the message — wrapping any error of those two steps
as `SendTaskError` with the original cause — then run the post-send hooks
and return a task handle built from the final message's id and the broker's
result backend. -/
def AsyncKicker.kiq (σ : Store) (k : AsyncKicker) (n : Nat)
    (args : List Value) (kwargs : List (String × Value)) : KiqOutput :=
  let labels := σ k.labelsRef
  let message := AsyncKicker.prepare_message σ k n args kwargs
  let message := runPre k.broker.middlewares labels message
  match k.broker.formatter.dumps message labels with
  | .error exc => { outcome := .error (.sendTaskError exc), postHooksRan := 0 }
  | .ok payload =>
    match k.broker.kick payload with
    | .error exc => { outcome := .error (.sendTaskError exc), postHooksRan := 0 }
    | .ok _ =>
      { outcome := .ok { task_id := message.task_id
                         result_backend := k.broker.result_backend.ref }
        postHooksRan := runPost k.broker.middlewares message labels }

/-- The task outcome stored by the result backend (`TaskiqResult` of
`taskiq/result.py`, opaque to this core). -/
abbrev TaskiqResult := Value

/-- The errors of `taskiq/task.py`: `ResultIsReadyError` and
`ResultGetError` wrap the original cause, `TaskiqResultTimeoutError` is a
local condition with no wrapped cause. -/
inductive TaskiqError where
  | resultIsReadyError : PyErr → TaskiqError
  | resultGetError : PyErr → TaskiqError
  | taskiqResultTimeoutError : TaskiqError
  deriving DecidableEq, Repr

/-- Behaviour of the external result backend during one wait: the readiness
query may answer differently (or raise) on each successive call, so it also
takes the index of the call; the result fetch takes the `with_logs` flag. -/
structure ResultBackendBehavior where
  is_result_ready : String → Nat → Except PyErr Bool
  get_result : String → Bool → Except PyErr TaskiqResult

/-- The method `AsyncTaskiqTask.is_ready` on the `i`-th readiness query:
any error of the backend is re-raised as `ResultIsReadyError` with the
original cause. -/
def AsyncTaskiqTask.is_ready (rb : ResultBackendBehavior) (t : AsyncTaskiqTask)
    (i : Nat) : Except TaskiqError Bool :=
  match rb.is_result_ready t.task_id i with
  | .ok b => .ok b
  | .error exc => .error (.resultIsReadyError exc)

/-- The method `AsyncTaskiqTask.get_result`: any error of the backend is
re-raised as `ResultGetError` with the original cause. -/
def AsyncTaskiqTask.get_result (rb : ResultBackendBehavior) (t : AsyncTaskiqTask)
    (with_logs : Bool) : Except TaskiqError TaskiqResult :=
  match rb.get_result t.task_id with_logs with
  | .ok r => .ok r
  | .error exc => .error (.resultGetError exc)

/-- Counts of the observable actions of one `wait_result` call. -/
structure WaitStats where
  checks : Nat
  sleeps : Nat
  result_fetches : Nat
  deriving DecidableEq, Repr

/-- One extra readiness check. -/
def WaitStats.check (st : WaitStats) : WaitStats :=
  { st with checks := st.checks + 1 }

/-- One extra sleep. -/
def WaitStats.sleep (st : WaitStats) : WaitStats :=
  { st with sleeps := st.sleeps + 1 }

/-- One extra result fetch. -/
def WaitStats.fetch (st : WaitStats) : WaitStats :=
  { st with result_fetches := st.result_fetches + 1 }

/-- The polling loop of `AsyncTaskiqTask.wait_result`:
`while not await self.is_ready(): await asyncio.sleep(check_interval);
if time() - start_time > timeout: raise TaskiqResultTimeoutError()`,
then `return await self.get_result(with_logs)`.  `elapsed` is
`time() - start_time`, advanced by `check_interval` at each sleep; `i`
numbers the readiness queries; `fuel` bounds the unrolling, `none` meaning
the loop was still running after `fuel` iterations. -/
def wait_loop (rb : ResultBackendBehavior) (t : AsyncTaskiqTask)
    (check_interval timeout : ℚ) (with_logs : Bool) (i : Nat) (elapsed : ℚ)
    (st : WaitStats) (fuel : Nat) :
    Option (Except TaskiqError TaskiqResult × WaitStats) :=
  match fuel with
  | 0 => none
  | fuel + 1 =>
    let st := st.check
    match t.is_ready rb i with
    | .error e => some (.error e, st)
    | .ok true => some (t.get_result rb with_logs, st.fetch)
    | .ok false =>
      let elapsed := elapsed + check_interval
      let st := st.sleep
      if timeout < elapsed then some (.error .taskiqResultTimeoutError, st)
      else wait_loop rb t check_interval timeout with_logs (i + 1) elapsed st fuel

/-- The method `AsyncTaskiqTask.wait_result`, started with a zero clock. -/
def AsyncTaskiqTask.wait_result (rb : ResultBackendBehavior) (t : AsyncTaskiqTask)
    (check_interval timeout : ℚ) (with_logs : Bool) (fuel : Nat) :
    Option (Except TaskiqError TaskiqResult × WaitStats) :=
  wait_loop rb t check_interval timeout with_logs 0 0 ⟨0, 0, 0⟩ fuel

theorem storeSet_self (σ : Store) (r : Nat) (m : LabelMap) : storeSet σ r m r = m := by
  simp [storeSet]

theorem dictLookup_dictSet (d : LabelMap) (k : String) (v : Value) (key : String) :
    dictLookup (dictSet d k v) key = if k = key then some v else dictLookup d key := by
  induction d with
  | nil => simp [dictSet, dictLookup]
  | cons p rest ih =>
    obtain ⟨k', v'⟩ := p
    by_cases hk : k' = k
    · subst hk
      by_cases hkey : k' = key <;> simp [dictSet, dictLookup, hkey]
    · by_cases hkey : k' = key
      · subst hkey
        have : ¬ k = k' := fun h => hk h.symm
        simp [dictSet, dictLookup, hk, this]
      · simp [dictSet, dictLookup, hk, hkey, ih]

theorem dictLookup_append (l1 l2 : LabelMap) (key : String) :
    dictLookup (l1 ++ l2) key = optOr (dictLookup l1 key) (dictLookup l2 key) := by
  induction l1 with
  | nil => simp [dictLookup, optOr]
  | cons p rest ih =>
    obtain ⟨k, v⟩ := p
    by_cases hk : k = key <;> simp [dictLookup, optOr, hk, ih]

theorem dictLookup_dictUpdate (new : LabelMap) : ∀ (d : LabelMap) (key : String),
    dictLookup (dictUpdate d new) key
      = optOr (dictLookup new.reverse key) (dictLookup d key) := by
  induction new with
  | nil => intro d key; simp [dictUpdate, dictLookup, optOr]
  | cons p rest ih =>
    intro d key
    obtain ⟨k, v⟩ := p
    have h1 : dictUpdate d ((k, v) :: rest) = dictUpdate (dictSet d k v) rest := rfl
    rw [h1, ih, List.reverse_cons, dictLookup_append, dictLookup_dictSet]
    cases hr : dictLookup rest.reverse key <;>
      by_cases hk : k = key <;> simp [optOr, dictLookup, hk, hr]

theorem uuid4hex_inj {n m : Nat} (h : uuid4hex n = uuid4hex m) : n = m := by
  have h2 : List.replicate (n + 1) 'f' = List.replicate (m + 1) 'f' :=
    congrArg String.data h
  have := congrArg List.length h2
  simpa using this

theorem uuid4hex_ne_empty (n : Nat) : uuid4hex n ≠ "" := by
  intro h
  have h2 : List.replicate (n + 1) 'f' = ([] : List Char) :=
    congrArg String.data h
  have := congrArg List.length h2
  simp at this

/-- C1: after `_prepare_message` builds a message, mutating the dispatcher's
label mapping through `with_labels` (or any other store update) leaves the
already-built message's `meta` field equal to the label map read at build
time: the message holds a frozen copy, while the dispatcher's live mapping
does change in the store. -/
theorem message_meta_frozen_at_build :
    ∀ (σ : Store) (k : AsyncKicker) (n : Nat) (args : List Value)
      (kwargs : List (String × Value)) (newLabels : LabelMap),
      let m := AsyncKicker.prepare_message σ k n args kwargs
      let σ' := (AsyncKicker.with_labels σ k newLabels).1
      m.meta = σ k.labelsRef
        ∧ σ' k.labelsRef = dictUpdate (σ k.labelsRef) newLabels := by
  intro σ k n args kwargs newLabels
  exact ⟨rfl, storeSet_self σ k.labelsRef _⟩

/-- C5: `_prepare_arg` replaces a top-level pydantic-model argument and a
top-level dataclass argument by its plain field mapping, passes every other
value through unchanged — in particular containers are not entered, so a
list or dict keeps the record instances nested inside it — and
`_prepare_message` applies exactly this normalization to each positional
and keyword argument. -/
theorem prepare_arg_normalization :
    (∀ fields, AsyncKicker.prepare_arg (.pydanticModel fields) = .vdict fields)
    ∧ (∀ fields, AsyncKicker.prepare_arg (.dataclassObj fields) = .vdict fields)
    ∧ (∀ s, AsyncKicker.prepare_arg (.vstr s) = .vstr s)
    ∧ (∀ i, AsyncKicker.prepare_arg (.vint i) = .vint i)
    ∧ AsyncKicker.prepare_arg .vnone = .vnone
    ∧ (∀ elems, AsyncKicker.prepare_arg (.vlist elems) = .vlist elems)
    ∧ (∀ fields, AsyncKicker.prepare_arg (.vdict fields) = .vdict fields)
    ∧ (∀ (σ : Store) (k : AsyncKicker) (n : Nat) (args : List Value)
        (kwargs : List (String × Value)),
        (AsyncKicker.prepare_message σ k n args kwargs).args
            = args.map AsyncKicker.prepare_arg
          ∧ (AsyncKicker.prepare_message σ k n args kwargs).kwargs
            = kwargs.map fun p => (p.1, AsyncKicker.prepare_arg p.2)) :=
  ⟨fun _ => rfl, fun _ => rfl, fun _ => rfl, fun _ => rfl, rfl, fun _ => rfl,
    fun _ => rfl, fun _ _ _ _ _ => ⟨rfl, rfl⟩⟩

/-- C8: every built message's `task_id` is non-empty and is determined once,
at build time, by the process-wide uuid supply; messages built by two
distinct dispatch attempts (two distinct draws from the supply) never share
a task id, whatever the dispatcher, store or arguments involved. -/
theorem task_id_unique_nonempty :
    ∀ (σ σ' : Store) (k k' : AsyncKicker) (n m : Nat)
      (args args' : List Value) (kwargs kwargs' : List (String × Value)),
      (AsyncKicker.prepare_message σ k n args kwargs).task_id ≠ ""
      ∧ (n ≠ m →
          (AsyncKicker.prepare_message σ k n args kwargs).task_id
            ≠ (AsyncKicker.prepare_message σ' k' m args' kwargs').task_id) := by
  intro σ σ' k k' n m args args' kwargs kwargs'
  exact ⟨uuid4hex_ne_empty n, fun hnm h => hnm (uuid4hex_inj h)⟩

/-- C9: `with_labels` returns the same kicker, merges the new entries into
the owned mapping in the store with last-write-wins per key (stated in
general through `dictLookup` of `dictUpdate`), and chained calls compose
left to right: from an empty mapping, `with_labels {a: 1}` then
`with_labels {a: 2, b: 3}` leaves the mapping `{a: 2, b: 3}`. -/
theorem with_labels_in_place_merge :
    ∀ (σ : Store) (k : AsyncKicker) (labels : LabelMap),
      (AsyncKicker.with_labels σ k labels).2 = k
      ∧ ((AsyncKicker.with_labels σ k labels).1) k.labelsRef
          = dictUpdate (σ k.labelsRef) labels
      ∧ (∀ (d new : LabelMap) (key : String),
          dictLookup (dictUpdate d new) key
            = optOr (dictLookup new.reverse key) (dictLookup d key))
      ∧ ((AsyncKicker.with_labels
            (AsyncKicker.with_labels (fun _ => []) k [("a", .vint 1)]).1
            (AsyncKicker.with_labels (fun _ => []) k [("a", .vint 1)]).2
            [("a", .vint 2), ("b", .vint 3)]).1) k.labelsRef
          = [("a", .vint 2), ("b", .vint 3)] := by
  intro σ k labels
  refine ⟨rfl, storeSet_self σ k.labelsRef _,
    fun d new key => dictLookup_dictUpdate new d key, ?_⟩
  simp only [AsyncKicker.with_labels, storeSet_self]
  rfl

theorem runPre_cons (mw : Middleware) (rest : List Middleware)
    (labels : LabelMap) (message : TaskiqMessage) :
    runPre (mw :: rest) labels message
      = runPre rest labels (resolveHook (mw.pre_send message labels)) := by
  cases h : mw.pre_send message labels <;> simp [runPre, resolveHook, h]

/-- C6: the pre-send hook loop resolves each hook's result — awaiting it
when pending, taking it directly when immediate — and feeds the resolved
message to the next hook, so the message handed on to the transport step is
the left-to-right fold of the hooks over the built message. -/
theorem pre_hooks_fold :
    ∀ (mids : List Middleware) (labels : LabelMap) (message : TaskiqMessage),
      runPre mids labels message
        = mids.foldl (fun m mw => resolveHook (mw.pre_send m labels)) message
      ∧ (∀ (mw : Middleware) (rest : List Middleware),
          runPre (mw :: rest) labels message
            = runPre rest labels (resolveHook (mw.pre_send message labels))) := by
  intro mids labels message
  constructor
  · induction mids generalizing message with
    | nil => rfl
    | cons mw rest ih => rw [runPre_cons, List.foldl_cons, ih]
  · exact fun mw rest => runPre_cons mw rest labels message

/-- C3: when encoding the final message or handing it to the transport
fails with any error, `kiq` raises exactly `SendTaskError` carrying that
error as its cause, no post-send hook runs, and no task handle is
produced. -/
theorem dispatch_failure_wrapped :
    ∀ (σ : Store) (k : AsyncKicker) (n : Nat) (args : List Value)
      (kwargs : List (String × Value)) (e : PyErr),
      (k.broker.formatter.dumps
          (runPre k.broker.middlewares (σ k.labelsRef)
            (AsyncKicker.prepare_message σ k n args kwargs))
          (σ k.labelsRef) = .error e
        ∨ ∃ payload,
            k.broker.formatter.dumps
              (runPre k.broker.middlewares (σ k.labelsRef)
                (AsyncKicker.prepare_message σ k n args kwargs))
              (σ k.labelsRef) = .ok payload
            ∧ k.broker.kick payload = .error e) →
      AsyncKicker.kiq σ k n args kwargs
        = { outcome := .error (.sendTaskError e), postHooksRan := 0 } := by
  intro σ k n args kwargs e h
  rcases h with h | ⟨payload, hd, hk⟩
  · simp [AsyncKicker.kiq, h]
  · simp [AsyncKicker.kiq, hd, hk]

def brokerC3 : Broker :=
  { middlewares := [{ pre_send := fun m _ => .immediate m
                      post_send := fun _ _ => .immediate () }]
    formatter := ⟨fun _ _ => .ok "payload"⟩
    kick := fun _ => .error "connection refused"
    result_backend := ⟨1, fun tid => ⟨tid, 1⟩⟩ }

def kickerC3 : AsyncKicker :=
  { task_name := "t3", broker := brokerC3, labelsRef := 0 }

theorem dispatch_failure_wrapped_witness :
    AsyncKicker.kiq (fun _ => []) kickerC3 0 [] []
      = { outcome := .error (.sendTaskError "connection refused")
          postHooksRan := 0 } :=
  dispatch_failure_wrapped (fun _ => []) kickerC3 0 [] [] "connection refused"
    (Or.inr ⟨"payload", rfl, rfl⟩)

def brokerC2 : Broker :=
  { middlewares := []
    formatter := ⟨fun _ _ => .ok ""⟩
    kick := fun _ => .ok ()
    result_backend := ⟨7, fun tid => { task_id := "factory-" ++ tid, result_backend := 7 }⟩ }

def kickerC2 : AsyncKicker :=
  { task_name := "t2", broker := brokerC2, labelsRef := 0 }

/-- C2 is false of the code: here is a dispatch that succeeds and whose
returned handle differs from the one the result store's handle factory
yields for the message's task id — `kiq` never consults the factory, it
constructs the handle itself. -/
theorem kiq_handle_not_from_factory :
    (AsyncKicker.kiq (fun _ => []) kickerC2 0 [] []).outcome
      = .ok { task_id := uuid4hex 0, result_backend := 7 }
    ∧ kickerC2.broker.result_backend.makeHandle (uuid4hex 0)
        = { task_id := "factory-" ++ uuid4hex 0, result_backend := 7 }
    ∧ ({ task_id := uuid4hex 0, result_backend := 7 } : AsyncTaskiqTask)
        ≠ { task_id := "factory-" ++ uuid4hex 0, result_backend := 7 } := by
  refine ⟨rfl, rfl, ?_⟩
  decide

/-- C2 (amended): for every successful dispatch, the dispatcher itself
constructs the returned handle as a concrete `AsyncTaskiqTask` from the
final message's task id and the broker's result backend; no handle-factory
operation of the result store is involved. -/
theorem kiq_handle_direct_construction :
    ∀ (σ : Store) (k : AsyncKicker) (n : Nat) (args : List Value)
      (kwargs : List (String × Value)) (h : AsyncTaskiqTask),
      (AsyncKicker.kiq σ k n args kwargs).outcome = .ok h →
      h = { task_id := (runPre k.broker.middlewares (σ k.labelsRef)
                          (AsyncKicker.prepare_message σ k n args kwargs)).task_id
            result_backend := k.broker.result_backend.ref } := by
  intro σ k n args kwargs h hok
  simp only [AsyncKicker.kiq] at hok
  split at hok
  · simp at hok
  · split at hok
    · simp at hok
    · simp only [Except.ok.injEq] at hok
      exact hok.symm

theorem kiq_handle_direct_construction_witness :
    ({ task_id := uuid4hex 0, result_backend := 7 } : AsyncTaskiqTask)
      = { task_id := (runPre kickerC2.broker.middlewares
                        ((fun _ => ([] : LabelMap)) kickerC2.labelsRef)
                        (AsyncKicker.prepare_message (fun _ => []) kickerC2 0 [] [])).task_id
          result_backend := kickerC2.broker.result_backend.ref } :=
  kiq_handle_direct_construction (fun _ => []) kickerC2 0 [] []
    { task_id := uuid4hex 0, result_backend := 7 } rfl

/-- C10: for every successful dispatch, the returned handle's task id is
the task id of the message after all pre-send hooks have run (so a hook
that replaces the message with one carrying a different task id changes
which task the handle polls), and the handle's result-backend reference is
the broker's result backend at dispatch time. -/
theorem handle_tracks_final_message :
    ∀ (σ : Store) (k : AsyncKicker) (n : Nat) (args : List Value)
      (kwargs : List (String × Value)) (h : AsyncTaskiqTask),
      (AsyncKicker.kiq σ k n args kwargs).outcome = .ok h →
      h.task_id = (runPre k.broker.middlewares (σ k.labelsRef)
                     (AsyncKicker.prepare_message σ k n args kwargs)).task_id
      ∧ h.result_backend = k.broker.result_backend.ref := by
  intro σ k n args kwargs h hok
  simp only [AsyncKicker.kiq] at hok
  split at hok
  · simp at hok
  · split at hok
    · simp at hok
    · simp only [Except.ok.injEq] at hok
      subst hok
      exact ⟨rfl, rfl⟩

def brokerC10 : Broker :=
  { middlewares := [{ pre_send := fun m _ => .pending { m with task_id := "replaced" }
                      post_send := fun _ _ => .immediate () }]
    formatter := ⟨fun _ _ => .ok ""⟩
    kick := fun _ => .ok ()
    result_backend := ⟨3, fun tid => ⟨tid, 3⟩⟩ }

def kickerC10 : AsyncKicker :=
  { task_name := "t10", broker := brokerC10, labelsRef := 0 }

theorem handle_tracks_final_message_witness :
    (⟨"replaced", 3⟩ : AsyncTaskiqTask).task_id
      = (runPre kickerC10.broker.middlewares
           ((fun _ => ([] : LabelMap)) kickerC10.labelsRef)
           (AsyncKicker.prepare_message (fun _ => []) kickerC10 0 [] [])).task_id
    ∧ (⟨"replaced", 3⟩ : AsyncTaskiqTask).result_backend
        = kickerC10.broker.result_backend.ref :=
  handle_tracks_final_message (fun _ => []) kickerC10 0 [] [] ⟨"replaced", 3⟩ rfl

theorem WaitStats.check_sleeps (st : WaitStats) : st.check.sleeps = st.sleeps := rfl

theorem WaitStats.sleep_sleeps (st : WaitStats) : st.sleep.sleeps = st.sleeps + 1 := rfl

theorem wait_loop_timeout_sleeps (rb : ResultBackendBehavior) (t : AsyncTaskiqTask)
    (ci tmo : ℚ) (wl : Bool) :
    ∀ (fuel i : Nat) (st st' : WaitStats),
      wait_loop rb t ci tmo wl i ((st.sleeps : ℚ) * ci) st fuel
        = some (.error .taskiqResultTimeoutError, st') →
      st.sleeps + 1 ≤ st'.sleeps ∧ tmo < (st'.sleeps : ℚ) * ci := by
  intro fuel
  induction fuel with
  | zero =>
    intro i st st' h
    simp [wait_loop] at h
  | succ fuel ih =>
    intro i st st' h
    simp only [wait_loop] at h
    split at h
    · rename_i e heq
      simp only [Option.some.injEq, Prod.mk.injEq, Except.error.injEq] at h
      obtain ⟨he, -⟩ := h
      subst he
      simp only [AsyncTaskiqTask.is_ready] at heq
      split at heq <;> simp at heq
    · rename_i heq
      simp only [Option.some.injEq, Prod.mk.injEq] at h
      obtain ⟨hg, -⟩ := h
      simp only [AsyncTaskiqTask.get_result] at hg
      split at hg <;> simp at hg
    · split at h
      · rename_i hto
        simp only [Option.some.injEq, Prod.mk.injEq, Except.error.injEq] at h
        obtain ⟨-, hst⟩ := h
        subst hst
        refine ⟨by simp [WaitStats.sleep_sleeps, WaitStats.check_sleeps], ?_⟩
        have : ((st.check.sleep.sleeps : ℚ)) * ci = (st.sleeps : ℚ) * ci + ci := by
          rw [WaitStats.sleep_sleeps, WaitStats.check_sleeps]
          push_cast
          ring
        rw [this]
        exact hto
      · have harg : (st.sleeps : ℚ) * ci + ci = ((st.check.sleep.sleeps : ℚ)) * ci := by
          rw [WaitStats.sleep_sleeps, WaitStats.check_sleeps]
          push_cast
          ring
        rw [harg] at h
        have := ih (i + 1) st.check.sleep st' h
        refine ⟨?_, this.2⟩
        have h1 := this.1
        rw [WaitStats.sleep_sleeps, WaitStats.check_sleeps] at h1
        omega

/-- C4: whenever `wait_result` ends in `TaskiqResultTimeoutError`, at least
one full `check_interval` suspension happened first — the elapsed/timeout
comparison sits after the sleep, so the loop can never time out between the
very first readiness check and the first sleep, even when the timeout is
smaller than the check interval — and the slept time strictly exceeds the
timeout. -/
theorem wait_result_timeout_after_sleep :
    ∀ (rb : ResultBackendBehavior) (t : AsyncTaskiqTask) (ci tmo : ℚ)
      (wl : Bool) (fuel : Nat) (st' : WaitStats),
      AsyncTaskiqTask.wait_result rb t ci tmo wl fuel
        = some (.error .taskiqResultTimeoutError, st') →
      1 ≤ st'.sleeps ∧ tmo < (st'.sleeps : ℚ) * ci := by
  intro rb t ci tmo wl fuel st' h
  have h0 : wait_loop rb t ci tmo wl 0
      ((((⟨0, 0, 0⟩ : WaitStats).sleeps : ℚ)) * ci) ⟨0, 0, 0⟩ fuel
      = some (.error .taskiqResultTimeoutError, st') := by
    simpa [AsyncTaskiqTask.wait_result] using h
  have := wait_loop_timeout_sleeps rb t ci tmo wl fuel 0 ⟨0, 0, 0⟩ st' h0
  exact ⟨by omega, this.2⟩

def rbNeverReady : ResultBackendBehavior :=
  { is_result_ready := fun _ _ => .ok false
    get_result := fun _ _ => .ok .vnone }

def taskC4 : AsyncTaskiqTask := ⟨"tid4", 4⟩

theorem wait_result_timeout_after_sleep_witness :
    1 ≤ (⟨1, 1, 0⟩ : WaitStats).sleeps
    ∧ (1 : ℚ) < (((⟨1, 1, 0⟩ : WaitStats).sleeps : ℚ)) * 2 :=
  wait_result_timeout_after_sleep rbNeverReady taskC4 2 1 false 3 ⟨1, 1, 0⟩
    (by norm_num [AsyncTaskiqTask.wait_result, wait_loop, AsyncTaskiqTask.is_ready,
      rbNeverReady, WaitStats.check, WaitStats.sleep])

/-- C7: if the readiness query of the result backend raises at any point of
the polling loop, the error leaves the loop at once as `ResultIsReadyError`
wrapping the original cause — only the check counter advances, so there is
no retry, no further sleep and no result fetch — and in particular a
failure of the very first query leaves `wait_result` with only that one
check performed. -/
theorem readiness_failure_aborts_wait :
    (∀ (rb : ResultBackendBehavior) (t : AsyncTaskiqTask) (ci tmo : ℚ)
      (wl : Bool) (i : Nat) (elapsed : ℚ) (st : WaitStats) (fuel : Nat) (e : PyErr),
      rb.is_result_ready t.task_id i = .error e →
      fuel ≠ 0 →
      wait_loop rb t ci tmo wl i elapsed st fuel
        = some (.error (.resultIsReadyError e), st.check))
    ∧ (∀ (rb : ResultBackendBehavior) (t : AsyncTaskiqTask) (ci tmo : ℚ)
        (wl : Bool) (fuel : Nat) (e : PyErr),
        rb.is_result_ready t.task_id 0 = .error e →
        fuel ≠ 0 →
        AsyncTaskiqTask.wait_result rb t ci tmo wl fuel
          = some (.error (.resultIsReadyError e), ⟨1, 0, 0⟩)) := by
  constructor
  · intro rb t ci tmo wl i elapsed st fuel e he hf
    cases fuel with
    | zero => exact absurd rfl hf
    | succ fuel => simp [wait_loop, AsyncTaskiqTask.is_ready, he]
  · intro rb t ci tmo wl fuel e he hf
    cases fuel with
    | zero => exact absurd rfl hf
    | succ fuel =>
      simp [AsyncTaskiqTask.wait_result, wait_loop, AsyncTaskiqTask.is_ready, he,
        WaitStats.check]

def rbFailC7 : ResultBackendBehavior :=
  { is_result_ready := fun _ _ => .error "store down"
    get_result := fun _ _ => .ok .vnone }

def taskC7 : AsyncTaskiqTask := ⟨"tid7", 7⟩

theorem readiness_failure_aborts_wait_witness :
    AsyncTaskiqTask.wait_result rbFailC7 taskC7 1 5 false 9
      = some (.error (.resultIsReadyError "store down"), ⟨1, 0, 0⟩) :=
  readiness_failure_aborts_wait.2 rbFailC7 taskC7 1 5 false 9 "store down" rfl
    (by decide)

def brokerC8 : Broker :=
  { middlewares := []
    formatter := ⟨fun _ _ => .ok ""⟩
    kick := fun _ => .ok ()
    result_backend := ⟨8, fun tid => ⟨tid, 8⟩⟩ }

def kickerC8 : AsyncKicker :=
  { task_name := "t8", broker := brokerC8, labelsRef := 0 }

theorem task_id_unique_nonempty_witness :
    (AsyncKicker.prepare_message (fun _ => []) kickerC8 0 [] []).task_id
      ≠ (AsyncKicker.prepare_message (fun _ => []) kickerC8 1 [] []).task_id :=
  (task_id_unique_nonempty (fun _ => []) (fun _ => []) kickerC8 kickerC8 0 1
    [] [] [] []).2 (by decide)
